import Mathlib

/-!
Shallow embedding of the client-side controllers of the site script
(`js/main.js`): utility helpers, the counter animation, skills/projects
filtering, and the contact-form submission pipeline, together with
theorems settling the spec claims about them.

JavaScript strings are modelled by Lean `String`, JS objects by
association lists `List (String × String)` with last-write-wins
assignment, `undefined` by `Option`, and IEEE numbers of the counter
animation by exact rationals `ℚ` (divisions appearing in the code are
exact at the instantiations used).
-/

namespace Showcase

/-! ## JS string helpers -/

/-- JS truthiness restricted to strings: only the empty string is falsy.
`jsOr a b` models the JS expression `a || b` for string values. -/
def jsOr (a b : String) : String := if a = "" then b else a

/-- JS `value.trim()`: strip leading and trailing whitespace. -/
def jsTrim (s : String) : String :=
  { data := ((s.data.dropWhile Char.isWhitespace).reverse.dropWhile
      Char.isWhitespace).reverse }

/-- `l.startsWith sub` on character lists: `sub` is an initial segment. -/
def listStartsWith : List Char → List Char → Bool
  | [], _ => true
  | _ :: _, [] => false
  | a :: as, b :: bs => a = b && listStartsWith as bs

/-- `hay.includes needle` of JS strings, on character lists: some suffix of
`hay` starts with `needle`. The empty needle is contained everywhere. -/
def listHasSub (sub : List Char) : List Char → Bool
  | [] => sub.isEmpty
  | c :: rest => listStartsWith sub (c :: rest) || listHasSub sub rest

/-- JS `hay.includes(needle)`: substring containment. -/
def jsIncludes (hay needle : String) : Bool :=
  listHasSub needle.toList hay.toList

/-! ## JS objects as association lists -/

/-- Property read `obj[k]`: `none` models `undefined`. Keys are unique by
construction (`objSet` removes before appending), so first match suffices. -/
def jsGet (obj : List (String × String)) (k : String) : Option String :=
  (obj.find? (fun p => p.1 = k)).map (fun p => p.2)

/-- Property read defaulted for `||` chains: `undefined` and `""` are both
falsy, and `jsOr` treats `""` as falsy, so `undefined` may be read as `""`. -/
def jsGetD (obj : List (String × String)) (k : String) : String :=
  (jsGet obj k).getD ""

/-- Property write `obj[k] = v` with overwrite semantics. -/
def objSet (obj : List (String × String)) (k v : String) :
    List (String × String) :=
  obj.filter (fun p => p.1 ≠ k) ++ [(k, v)]

/-! ## Utils.isValidEmail

The source tests the regex `^[^\s@]+@[^\s@]+\.[^\s@]+$`: one or more
characters that are neither whitespace nor `@`, an `@`, then a domain part
that again contains no whitespace and no `@` and splits around some `.`
into two nonempty halves. -/

/-- A character admitted by the regex class `[^\s@]`. -/
def okChar (c : Char) : Bool := !c.isWhitespace && c ≠ '@'

/-- Scanning the domain after its first character: is there a `.` that is
not the last character? Combined with a nonempty prefix before the scan
started, this is exactly a `.` with nonempty material on both sides. -/
def dotAux : List Char → Bool
  | [] => false
  | ['.'] => false
  | '.' :: _ :: _ => true
  | _ :: rest => dotAux rest

/-- The regex fragment `[^\s@]+\.[^\s@]+`: the domain splits at some `.`
into two nonempty halves (each half may itself contain further dots). -/
def domainDotOk : List Char → Bool
  | [] => false
  | _ :: rest => dotAux rest

/-- Remainder after at least one local-part character has been read:
consume `[^\s@]*` up to the `@`, then check the domain part. -/
def emailAfterLocal : List Char → Bool
  | [] => false
  | '@' :: rest => rest.all okChar && domainDotOk rest
  | c :: rest => okChar c && emailAfterLocal rest

/-- `Utils.isValidEmail`: the anchored regex `^[^\s@]+@[^\s@]+\.[^\s@]+$`. -/
def isValidEmail (email : String) : Bool :=
  match email.toList with
  | [] => false
  | c :: rest => okChar c && emailAfterLocal rest

/-! ## Utils.showLoading / Utils.hideLoading -/

/-- A DOM element as the loading helpers see it. -/
structure Elem where
  innerHTML : String
  disabled : Bool
  deriving Repr, DecidableEq

/-- The spinner markup `showLoading` writes, for a given label text. -/
def spinnerHTML (text : String) : String :=
  "\n            <i class=\"fas fa-spinner fa-spin\" aria-hidden=\"true\"></i>\n            <span>" ++ text ++ "</span>\n        "

/-- `Utils.showLoading(element, text)`: saves `innerHTML`, replaces it with
spinner markup, disables the element, and returns the saved content. -/
def showLoading (text : String) (element : Elem) : String × Elem :=
  let originalContent := element.innerHTML
  (originalContent, { element with innerHTML := spinnerHTML text, disabled := true })

/-- `Utils.hideLoading(element, originalContent)`. -/
def hideLoading (originalContent : String) (element : Elem) : Elem :=
  { element with innerHTML := originalContent, disabled := false }

/-! ## Utils.animateCounter

`animateCounter(element, target, duration = 2000)` reads the starting
integer from the element text, computes
`increment = (target - start) / (duration / 16)` once, and then every 16ms
adds the increment, clamps and stops the interval when the running value
passes the target in the direction of a nonzero increment, and writes
`Math.floor(current)` back to the element. One `counterTick` is one firing
of the interval callback; numbers are exact rationals. -/

structure CounterState where
  current : ℚ
  timerActive : Bool
  textContent : ℤ
  deriving Repr, DecidableEq

/-- State when the interval is installed: running value and displayed text
both hold the parsed start value. -/
def counterInit (start : ℤ) : CounterState :=
  { current := start, timerActive := true, textContent := start }

/-- The increment computed by `animateCounter`. -/
def animateCounterInc (start target : ℤ) (duration : ℚ) : ℚ :=
  ((target : ℚ) - (start : ℚ)) / (duration / 16)

/-- One firing of the interval callback installed by `animateCounter`:
`current += increment`, clamp-and-stop when the running value passes the
target in the direction of a nonzero increment, then write
`Math.floor(current)` to the element. -/
def counterTick (target : ℚ) (increment : ℚ) (s : CounterState) : CounterState :=
  if s.timerActive then
    if (increment > 0 ∧ target ≤ s.current + increment) ∨
       (increment < 0 ∧ s.current + increment ≤ target) then
      { current := target, timerActive := false, textContent := ⌊target⌋ }
    else
      { current := s.current + increment, timerActive := true,
        textContent := ⌊s.current + increment⌋ }
  else s

/-! ## SkillsManager.switchCategory

Settled state of the DOM after a category switch: every scheduled
`setTimeout(..., index * 100)` has fired, so the progress bars of the newly
active category carry their `data-width` as inline width. -/

structure SkillBar where
  dataWidth : String
  styleWidth : String
  deriving Repr, DecidableEq

structure NavButton where
  dataCategory : String
  active : Bool
  deriving Repr, DecidableEq

structure SkillCategory where
  dataCategory : String
  active : Bool
  bars : List SkillBar
  deriving Repr, DecidableEq

structure SkillsState where
  currentCategory : String
  navBtns : List NavButton
  categories : List SkillCategory
  deriving Repr, DecidableEq

/-- `SkillsManager.switchCategory(category)`, settled after its staggered
timeouts: same-value calls return immediately; otherwise the nav buttons
and category panels toggle their active class, and the bars of the newly
active panel receive their stored widths. -/
def switchCategory (category : String) (s : SkillsState) : SkillsState :=
  if category = s.currentCategory then s
  else
    { currentCategory := category
      navBtns := s.navBtns.map (fun btn =>
        { btn with active := btn.dataCategory = category })
      categories := s.categories.map (fun cat =>
        let isActive := cat.dataCategory = category
        { cat with
          active := isActive
          bars := if isActive then
              cat.bars.map (fun bar => { bar with styleWidth := bar.dataWidth })
            else cat.bars }) }

/-! ## ProjectsManager.filterProjects

Card styles settled after both kinds of timeout (the 50ms fade-in and the
300ms `display:none`) have fired. -/

structure ProjectCard where
  /-- `data-category` attribute; `none` when absent (read back as `""`). -/
  dataCategory : Option String
  display : String
  opacity : String
  transform : String
  deriving Repr, DecidableEq

structure FilterButton where
  dataFilter : String
  active : Bool
  deriving Repr, DecidableEq

structure ProjectsState where
  currentFilter : String
  filterBtns : List FilterButton
  projectCards : List ProjectCard
  deriving Repr, DecidableEq

/-- The visibility test of `filterProjects`:
`filter === 'all' || categories.includes(filter)`. -/
def cardShouldShow (filter : String) (card : ProjectCard) : Bool :=
  filter = "all" || jsIncludes (card.dataCategory.getD "") filter

/-- One card after `filterProjects`, settled: a shown card is `block` and
faded in; a hidden card is faded out and given `display:none` after 300ms. -/
def filterCardSettled (filter : String) (card : ProjectCard) : ProjectCard :=
  if cardShouldShow filter card then
    { card with display := "block", opacity := "1", transform := "scale(1)" }
  else
    { card with opacity := "0", transform := "scale(0.8)", display := "none" }

/-- `ProjectsManager.filterProjects(filter)`, settled after its timeouts. -/
def filterProjects (filter : String) (s : ProjectsState) : ProjectsState :=
  if filter = s.currentFilter then s
  else
    { currentFilter := filter
      filterBtns := s.filterBtns.map (fun btn =>
        { btn with active := btn.dataFilter = filter })
      projectCards := s.projectCards.map (filterCardSettled filter) }

/-! ## AnimationManager.setupScrollAnimations

The intersection callback over a batch of entries: an intersecting target
not yet in `animatedElements` is revealed (`animateElement`) and added to
the set; everything else is ignored. Elements are identified by `Nat`
ids; `revealLog` records each `animateElement` call. -/

structure IntersectionEntry where
  target : ℕ
  isIntersecting : Bool
  deriving Repr, DecidableEq

structure AnimState where
  animatedElements : List ℕ
  revealLog : List ℕ
  deriving Repr, DecidableEq

/-- Handling of a single intersection entry by the scroll-animation
observer callback. -/
def scrollAnimStep (s : AnimState) (e : IntersectionEntry) : AnimState :=
  if e.isIntersecting && !(s.animatedElements.contains e.target) then
    { animatedElements := e.target :: s.animatedElements
      revealLog := s.revealLog ++ [e.target] }
  else s

/-- A whole page-load history of intersection entries, processed in event
order from the initial empty observed set. -/
def scrollAnimRun (entries : List IntersectionEntry) : AnimState :=
  entries.foldl scrollAnimStep { animatedElements := [], revealLog := [] }

/-! ## ContactFormManager

A form field as the controller reads it: `name`, current `value`,
`defaultValue` (what `form.reset()` restores), the `required` and
`minlength` attributes, the `type` property, the resolved label text
(`getFieldLabel`: associated label minus the `*`, else the name), and the
state of the inline `#<name>-error` element (`none` when cleared). -/

structure FormField where
  name : String
  value : String
  defaultValue : String
  required : Bool
  fieldType : String
  minlength : Option ℕ
  label : String
  errorShown : Option String
  deriving Repr, DecidableEq

/-- `ContactFormManager.validateField(field)`: the error message shown for
the field, `none` when the field is valid. Rules fire in source order:
required-and-empty, then email pattern, then minimum length. -/
def validateField (field : FormField) : Option String :=
  let value := jsTrim field.value
  if field.required ∧ value = "" then
    some (field.label ++ " is required.")
  else if field.fieldType = "email" ∧ value ≠ "" ∧ isValidEmail value = false then
    some "Please enter a valid email address."
  else
    match field.minlength with
    | some minLength =>
      if value.length < minLength then
        some (field.label ++ " must be at least " ++ toString minLength ++ " characters.")
      else none
    | none => none

/-- Submission metadata appended to the payload: `new Date().toISOString()`,
`navigator.userAgent`, `window.location.href`. -/
structure SubmitEnv where
  timestamp : String
  userAgent : String
  pageUrl : String
  deriving Repr, DecidableEq

/-- Resolution of the awaited `emailjs.send` call. -/
inductive EmailOutcome where
  | success
  | failure (err : String)
  deriving Repr, DecidableEq

/-- The `#form-feedback` banner shown by `showFormMessage(message, type)`. -/
structure Banner where
  message : String
  msgType : String
  deriving Repr, DecidableEq

structure ContactFormState where
  isSubmitting : Bool
  fields : List FormField
  submitBtn : Elem
  banner : Option Banner
  /-- Payloads handed to `emailjs.send` (outbound email attempts). -/
  emailCalls : List (List (String × String))
  /-- Events handed to `trackEvent`; a property read off a missing key is
  `undefined`, i.e. `none`. -/
  analyticsEvents : List (String × List (String × Option String))
  /-- `console.error` log. -/
  consoleErrors : List String
  deriving Repr, DecidableEq

/-- `new FormData(this.form)` iterated into `templateParams`: every named
control contributes `templateParams[key] = value`, later entries
overwriting earlier ones. -/
def fieldEntries (fields : List FormField) : List (String × String) :=
  fields.foldl (fun obj f => objSet obj f.name f.value) []

/-- The backup direct lookup `this.form.querySelector('#x, input[name="x"]')`
followed by `?.value`; a missing field reads as `""`, which is falsy exactly
like `undefined` in every use below. -/
def backupValue (fields : List FormField) (n : String) : String :=
  match fields.find? (fun f => f.name = n) with
  | some f => f.value
  | none => ""

/-- The body of the `message` template literal of `finalTemplateParams`. -/
def submissionMessageBody (finalName finalEmail finalCompany finalBudget
    finalService timelineText finalMessage timestamp pageUrl : String) : String :=
  "\nNew Contact Form Submission:\n\nName: " ++ finalName ++
  "\nEmail: " ++ finalEmail ++
  "\nCompany: " ++ finalCompany ++
  "\nBudget: " ++ finalBudget ++
  "\nService: " ++ finalService ++
  "\nTimeline: " ++ timelineText ++
  "\n\nMessage:\n" ++ finalMessage ++
  "\n\n---\nSubmitted: " ++ timestamp ++
  "\nFrom: " ++ pageUrl ++
  "\n                "

/-- The `finalTemplateParams` object built by `handleContactSubmission`:
generic `FormData` extraction, conditional overwrite from the direct
lookups, metadata, the `final*` fallback chain, and the final object
literal, with keys in source order. -/
def buildFinalTemplateParams (env : SubmitEnv) (fields : List FormField) :
    List (String × String) :=
  let templateParams := fieldEntries fields
  let nameV := backupValue fields "name"
  let emailV := backupValue fields "email"
  let companyV := backupValue fields "company"
  let budgetV := backupValue fields "budget"
  let serviceV := backupValue fields "service"
  let messageV := backupValue fields "message"
  let templateParams := if nameV ≠ "" then objSet templateParams "name" nameV else templateParams
  let templateParams := if emailV ≠ "" then objSet templateParams "email" emailV else templateParams
  let templateParams := if companyV ≠ "" then objSet templateParams "company" companyV else templateParams
  let templateParams := if budgetV ≠ "" then objSet templateParams "budget" budgetV else templateParams
  let templateParams := if serviceV ≠ "" then objSet templateParams "service" serviceV else templateParams
  let templateParams := if messageV ≠ "" then objSet templateParams "message" messageV else templateParams
  let templateParams := objSet templateParams "timestamp" env.timestamp
  let templateParams := objSet templateParams "user_agent" env.userAgent
  let templateParams := objSet templateParams "page_url" env.pageUrl
  let finalName := jsOr (jsGetD templateParams "name") (jsOr nameV "")
  let finalEmail := jsOr (jsGetD templateParams "email") (jsOr emailV "")
  let finalCompany := jsOr (jsGetD templateParams "company") (jsOr companyV "")
  let finalBudget := jsOr (jsGetD templateParams "budget") (jsOr budgetV "")
  let finalService := jsOr (jsGetD templateParams "service") (jsOr serviceV "")
  let finalMessage := jsOr (jsGetD templateParams "message") (jsOr messageV "")
  [ ("message", submissionMessageBody finalName finalEmail finalCompany
        finalBudget finalService (jsOr (jsGetD templateParams "timeline") "Not specified")
        finalMessage (jsGetD templateParams "timestamp") (jsGetD templateParams "page_url")),
    ("from_name", jsOr finalName "Website Visitor"),
    ("from_email", jsOr finalEmail "noreply@gabrieletupini.dev"),
    ("reply_to", jsOr finalEmail "noreply@gabrieletupini.dev"),
    ("to_name", "Gabriele Tupini"),
    ("subject", "Contact Form: " ++ jsOr finalService "New Inquiry"),
    ("user_name", finalName),
    ("user_email", finalEmail),
    ("user_company", finalCompany),
    ("user_budget", finalBudget),
    ("user_service", finalService),
    ("user_timeline", jsOr (jsGetD templateParams "timeline") "Not specified"),
    ("user_message", finalMessage) ]

/-- The property record passed to
`trackEvent('contact_form_submit', { service: ..., budget: ... })`:
both values are read off `finalTemplateParams` by those exact keys. -/
def submitAnalyticsProps (payload : List (String × String)) :
    List (String × Option String) :=
  [("service", jsGet payload "service"), ("budget", jsGet payload "budget")]

def successBannerText : String :=
  "Thank you for your message! I\x27ll get back to you within 24 hours."

def failureBannerText : String :=
  "Sorry, there was an error sending your message. Please try again or email me directly."

/-- `ContactFormManager.handleContactSubmission()`, run to completion with
the `emailjs.send` call resolving as `outcome`. An in-flight submission
returns immediately. Otherwise every `required` control is validated (no
short-circuit, errors written per field); an invalid form shows the
general banner and aborts before the flag, the loading state, or any
outbound call. A valid form sets the flag, swaps the button to its busy
state, builds the payload, sends it, and on success shows the success
banner, resets the form and emits the analytics event, while on failure
logs and shows the error banner; the `finally` block clears the flag and
restores the button in both cases. -/
def handleContactSubmission (env : SubmitEnv) (outcome : EmailOutcome)
    (s : ContactFormState) : ContactFormState :=
  if s.isSubmitting then s
  else
    let validated := s.fields.map (fun f =>
      if f.required then { f with errorShown := validateField f } else f)
    let isFormValid := s.fields.all (fun f => !f.required || (validateField f).isNone)
    if isFormValid = false then
      { s with
        fields := validated
        banner := some { message := "Please correct the errors below.", msgType := "error" } }
    else
      let loading := showLoading "Sending..." s.submitBtn
      let payload := buildFinalTemplateParams env s.fields
      match outcome with
      | .success =>
        { isSubmitting := false
          fields := validated.map (fun f => { f with value := f.defaultValue })
          submitBtn := hideLoading loading.1 loading.2
          banner := some { message := successBannerText, msgType := "success" }
          emailCalls := s.emailCalls ++ [payload]
          analyticsEvents := s.analyticsEvents ++
            [("contact_form_submit", submitAnalyticsProps payload)]
          consoleErrors := s.consoleErrors }
      | .failure err =>
        { isSubmitting := false
          fields := validated
          submitBtn := hideLoading loading.1 loading.2
          banner := some { message := failureBannerText, msgType := "error" }
          emailCalls := s.emailCalls ++ [payload]
          analyticsEvents := s.analyticsEvents
          consoleErrors := s.consoleErrors ++ ["Form submission failed: " ++ err] }

/-! ## Concrete fixtures for the witness theorems -/

def exEnv : SubmitEnv :=
  { timestamp := "2026-01-28T12:00:00.000Z"
    userAgent := "TestAgent/1.0"
    pageUrl := "https://gabrieletupini.dev/" }

def exNameField : FormField :=
  { name := "name", value := "Jane Doe", defaultValue := "", required := true
    fieldType := "text", minlength := none, label := "Name", errorShown := none }

def exEmailField : FormField :=
  { name := "email", value := "jane@example.com", defaultValue := "", required := true
    fieldType := "email", minlength := none, label := "Email", errorShown := none }

def exServiceField : FormField :=
  { name := "service", value := "Web Development", defaultValue := "", required := false
    fieldType := "select-one", minlength := none, label := "Service", errorShown := none }

def exBudgetField : FormField :=
  { name := "budget", value := "$10k+", defaultValue := "", required := false
    fieldType := "select-one", minlength := none, label := "Budget", errorShown := none }

def exMessageField : FormField :=
  { name := "message", value := "Hello from the fixtures", defaultValue := "", required := true
    fieldType := "textarea", minlength := some 10, label := "Message", errorShown := none }

def exButton : Elem := { innerHTML := "<span>Send Message</span>", disabled := false }

def exValidState : ContactFormState :=
  { isSubmitting := false
    fields := [exNameField, exEmailField, exServiceField, exBudgetField, exMessageField]
    submitBtn := exButton
    banner := none
    emailCalls := []
    analyticsEvents := []
    consoleErrors := [] }

def exInvalidState : ContactFormState :=
  { exValidState with
    fields := [{ exNameField with value := "" }, exEmailField, exMessageField] }

def exInflightState : ContactFormState := { exValidState with isSubmitting := true }

def exSkillsState : SkillsState :=
  { currentCategory := "frontend"
    navBtns := [{ dataCategory := "frontend", active := true },
                { dataCategory := "backend", active := false }]
    categories := [{ dataCategory := "frontend", active := true,
                     bars := [{ dataWidth := "90%", styleWidth := "90%" }] },
                   { dataCategory := "backend", active := false,
                     bars := [{ dataWidth := "80%", styleWidth := "0" }] }] }

def exProjectsState : ProjectsState :=
  { currentFilter := "all"
    filterBtns := [{ dataFilter := "all", active := true },
                   { dataFilter := "web", active := false }]
    projectCards := [{ dataCategory := some "web,frontend", display := "block",
                       opacity := "1", transform := "scale(1)" },
                     { dataCategory := some "cloud", display := "block",
                       opacity := "1", transform := "scale(1)" },
                     { dataCategory := none, display := "block",
                       opacity := "1", transform := "scale(1)" }] }

/-! ## Theorems for the claims -/

/-- C10: `showLoading` returns the prior `innerHTML` and leaves the element
disabled with the spinner content; `hideLoading` applied to that returned
value restores the `innerHTML` to exactly its pre-`showLoading` value and
sets `disabled` back to `false`. -/
theorem showLoading_hideLoading_roundtrip (element : Elem) (text : String) :
    (showLoading text element).1 = element.innerHTML ∧
    (showLoading text element).2.innerHTML = spinnerHTML text ∧
    (showLoading text element).2.disabled = true ∧
    hideLoading (showLoading text element).1 (showLoading text element).2 =
      { innerHTML := element.innerHTML, disabled := false } :=
  ⟨rfl, rfl, rfl, rfl⟩

/-- C3: while a submission is in flight (`isSubmitting = true`), a further
call to the submission handler is a no-op: the whole controller state —
fields and their errors, flag, button, banners, email-call and analytics
logs — is returned unchanged, whatever the pending outcome would be. -/
theorem inflight_submission_noop (env : SubmitEnv) (outcome : EmailOutcome)
    (s : ContactFormState) (h : s.isSubmitting = true) :
    handleContactSubmission env outcome s = s := by
  simp [handleContactSubmission, h]

/-- Witness for C3 at a concrete in-flight state. -/
theorem inflight_submission_noop_witness :
    handleContactSubmission exEnv EmailOutcome.success exInflightState = exInflightState :=
  inflight_submission_noop exEnv EmailOutcome.success exInflightState rfl

/-- C7: selecting the value that is already current is a no-op for both the
skills category and the project filter, and switching twice in a row to the
same value equals switching once. -/
theorem same_selection_noop_and_idempotent (category filter : String)
    (sk : SkillsState) (pr : ProjectsState) :
    (category = sk.currentCategory → switchCategory category sk = sk) ∧
    switchCategory category (switchCategory category sk) = switchCategory category sk ∧
    (filter = pr.currentFilter → filterProjects filter pr = pr) ∧
    filterProjects filter (filterProjects filter pr) = filterProjects filter pr := by
  refine ⟨fun h => by simp [switchCategory, h], ?_, fun h => by simp [filterProjects, h], ?_⟩
  · by_cases h : category = sk.currentCategory
    · simp [switchCategory, h]
    · simp [switchCategory, h]
  · by_cases h : filter = pr.currentFilter
    · simp [filterProjects, h]
    · simp [filterProjects, h]

/-- Witness for C7 at concrete states whose current selections coincide
with the requested values. -/
theorem same_selection_noop_witness :
    switchCategory "frontend" exSkillsState = exSkillsState ∧
    filterProjects "all" exProjectsState = exProjectsState :=
  ⟨(same_selection_noop_and_idempotent "frontend" "all" exSkillsState exProjectsState).1 rfl,
   (same_selection_noop_and_idempotent "frontend" "all" exSkillsState exProjectsState).2.2.1 rfl⟩

/-- Invariant of the scroll-animation observer fold: the reveal log stays
duplicate-free and every revealed element is in the observed set. -/
theorem scrollAnim_fold_invariant (entries : List IntersectionEntry) :
    ∀ s : AnimState, s.revealLog.Nodup →
      (∀ x ∈ s.revealLog, x ∈ s.animatedElements) →
      (entries.foldl scrollAnimStep s).revealLog.Nodup ∧
        ∀ x ∈ (entries.foldl scrollAnimStep s).revealLog,
          x ∈ (entries.foldl scrollAnimStep s).animatedElements := by
  induction entries with
  | nil => exact fun s hnd hsub => ⟨hnd, hsub⟩
  | cons e rest ih =>
    intro s hnd hsub
    rw [List.foldl_cons]
    by_cases hcond : (e.isIntersecting && !(s.animatedElements.contains e.target)) = true
    · have hparts : e.isIntersecting = true ∧ e.target ∉ s.animatedElements := by
        simpa using hcond
      have hstep : scrollAnimStep s e =
          { animatedElements := e.target :: s.animatedElements
            revealLog := s.revealLog ++ [e.target] } := by
        unfold scrollAnimStep
        rw [if_pos hcond]
      rw [hstep]
      refine ih _ ?_ ?_
      · simp [List.nodup_append, hnd]
        exact fun hmem => hparts.2 (hsub _ hmem)
      · intro x hx
        rcases List.mem_append.mp hx with hx | hx
        · exact List.mem_cons_of_mem _ (hsub _ hx)
        · simp at hx
          simp [hx]
    · have hstep : scrollAnimStep s e = s := by
        unfold scrollAnimStep
        rw [if_neg hcond]
      rw [hstep]
      exact ih s hnd hsub

/-- C8: over any page-load history of intersection entries, each element is
revealed at most once, and an intersection entry for an element already in
the observed set is ignored entirely. -/
theorem entrance_animation_at_most_once (entries : List IntersectionEntry) (id : ℕ) :
    (scrollAnimRun entries).revealLog.count id ≤ 1 ∧
    ∀ (s : AnimState) (hit : Bool), id ∈ s.animatedElements →
      scrollAnimStep s { target := id, isIntersecting := hit } = s := by
  constructor
  · have h := scrollAnim_fold_invariant entries
      { animatedElements := [], revealLog := [] } (by simp) (by simp)
    exact List.nodup_iff_count_le_one.mp h.1 id
  · intro s hit hmem
    simp [scrollAnimStep, hmem]

/-- Witness for C8: an element intersecting three times is revealed once,
and a repeat entry on a state that has already observed it is a no-op. -/
theorem entrance_animation_at_most_once_witness :
    (scrollAnimRun [{ target := 7, isIntersecting := true },
                    { target := 7, isIntersecting := false },
                    { target := 7, isIntersecting := true }]).revealLog.count 7 ≤ 1 ∧
    scrollAnimStep { animatedElements := [7], revealLog := [7] }
        { target := 7, isIntersecting := true } =
      { animatedElements := [7], revealLog := [7] } :=
  ⟨(entrance_animation_at_most_once
      [{ target := 7, isIntersecting := true },
       { target := 7, isIntersecting := false },
       { target := 7, isIntersecting := true }] 7).1,
   (entrance_animation_at_most_once
      [{ target := 7, isIntersecting := true },
       { target := 7, isIntersecting := false },
       { target := 7, isIntersecting := true }] 7).2
      { animatedElements := [7], revealLog := [7] } true (by simp)⟩

/-- C6: for a filter different from the current one, `filterProjects`
applies `filterCardSettled` to every card; after the 300ms transition a
card is non-hidden exactly when the filter is `all` or is a substring of
the card's `data-category` tag (absent tags read as `""`), every card ends
`block` or `none`, and a filter matching zero cards therefore leaves every
card hidden — the function is total, so no error is thrown. -/
theorem filterProjects_visible_iff (filter : String) (s : ProjectsState)
    (h : filter ≠ s.currentFilter) :
    (filterProjects filter s).currentFilter = filter ∧
    (filterProjects filter s).projectCards = s.projectCards.map (filterCardSettled filter) ∧
    ∀ card ∈ s.projectCards,
      ((filterCardSettled filter card).display ≠ "none" ↔
        (filter = "all" ∨ jsIncludes (card.dataCategory.getD "") filter = true)) ∧
      ((filterCardSettled filter card).display = "block" ∨
        (filterCardSettled filter card).display = "none") := by
  refine ⟨by simp [filterProjects, h], by simp [filterProjects, h], ?_⟩
  intro card _
  by_cases hs : (cardShouldShow filter card) = true
  · have hrhs : filter = "all" ∨ jsIncludes (card.dataCategory.getD "") filter = true := by
      simpa [cardShouldShow] using hs
    have hdisp : (filterCardSettled filter card).display = "block" := by
      unfold filterCardSettled
      rw [if_pos hs]
    rw [hdisp]
    exact ⟨⟨fun _ => hrhs, fun _ => by decide⟩, Or.inl rfl⟩
  · have hrhs : ¬(filter = "all" ∨ jsIncludes (card.dataCategory.getD "") filter = true) := by
      simpa [cardShouldShow] using hs
    have hdisp : (filterCardSettled filter card).display = "none" := by
      unfold filterCardSettled
      rw [if_neg hs]
    rw [hdisp]
    exact ⟨⟨fun hne => absurd rfl hne, fun hr => absurd hr hrhs⟩, Or.inr rfl⟩

/-- Witness for C6: switching from `all` to `web` on a concrete card list. -/
theorem filterProjects_visible_iff_witness :
    (filterProjects "web" exProjectsState).projectCards =
      exProjectsState.projectCards.map (filterCardSettled "web") ∧
    (filterProjects "web" exProjectsState).currentFilter = "web" :=
  ⟨(filterProjects_visible_iff "web" exProjectsState (by decide)).2.1,
   (filterProjects_visible_iff "web" exProjectsState (by decide)).1⟩

/-- C5: `validateField` applies its rules in order — required-and-empty
gives "(label) is required.", otherwise a non-empty email-typed value
failing the pattern gives the email message, otherwise a `minlength`
shorter than the trimmed value length gives the length message, and in all
remaining cases the field is valid with no error shown. -/
theorem validateField_rule_order (f : FormField) :
    (f.required = true ∧ jsTrim f.value = "" →
      validateField f = some (f.label ++ " is required.")) ∧
    (¬(f.required = true ∧ jsTrim f.value = "") →
      f.fieldType = "email" ∧ jsTrim f.value ≠ "" ∧ isValidEmail (jsTrim f.value) = false →
      validateField f = some "Please enter a valid email address.") ∧
    (∀ n : ℕ, ¬(f.required = true ∧ jsTrim f.value = "") →
      ¬(f.fieldType = "email" ∧ jsTrim f.value ≠ "" ∧ isValidEmail (jsTrim f.value) = false) →
      f.minlength = some n → (jsTrim f.value).length < n →
      validateField f =
        some (f.label ++ " must be at least " ++ toString n ++ " characters.")) ∧
    (¬(f.required = true ∧ jsTrim f.value = "") →
      ¬(f.fieldType = "email" ∧ jsTrim f.value ≠ "" ∧ isValidEmail (jsTrim f.value) = false) →
      (∀ n : ℕ, f.minlength = some n → ¬((jsTrim f.value).length < n)) →
      validateField f = none) := by
  refine ⟨fun h1 => ?_, fun h1 h2 => ?_, fun n h1 h2 h3 h4 => ?_, fun h1 h2 h3 => ?_⟩
  · simp only [validateField]
    rw [if_pos h1]
  · simp only [validateField]
    rw [if_neg h1, if_pos h2]
  · simp only [validateField]
    rw [if_neg h1, if_neg h2, h3]
    show (if (jsTrim f.value).length < n then
        some (f.label ++ " must be at least " ++ toString n ++ " characters.")
      else none) = _
    rw [if_pos h4]
  · simp only [validateField]
    rw [if_neg h1, if_neg h2]
    cases hm : f.minlength with
    | none => rfl
    | some n =>
      show (if (jsTrim f.value).length < n then
          some (f.label ++ " must be at least " ++ toString n ++ " characters.")
        else none) = _
      rw [if_neg (h3 n hm)]

/-- Witness for C5: a required field left blank triggers the first rule. -/
theorem validateField_rule_order_witness :
    validateField { exNameField with value := "   " } = some "Name is required." :=
  (validateField_rule_order { exNameField with value := "   " }).1 ⟨rfl, by decide⟩

/-- The submit-time validity accumulator is `true` exactly when every
required field validates. -/
theorem form_all_valid_of_forall {s : ContactFormState}
    (hvalid : ∀ f ∈ s.fields, f.required = true → validateField f = none) :
    s.fields.all (fun f => !f.required || (validateField f).isNone) = true := by
  rw [List.all_eq_true]
  intro f hf
  by_cases hr : f.required = true
  · simp [hr, hvalid f hf hr]
  · simp [Bool.eq_false_iff.mpr hr]

/-- C4: when some required field fails validation, the handler writes every
required field's error state (no short-circuit, one message per field as
computed by `validateField`), shows the general error banner, and aborts:
no outbound email call, submitting flag still false, button untouched. -/
theorem invalid_submission_blocked (env : SubmitEnv) (outcome : EmailOutcome)
    (s : ContactFormState) (hflag : s.isSubmitting = false)
    (hinv : ∃ f ∈ s.fields, f.required = true ∧ validateField f ≠ none) :
    handleContactSubmission env outcome s =
      { s with
        fields := s.fields.map (fun f =>
          if f.required then { f with errorShown := validateField f } else f)
        banner := some { message := "Please correct the errors below.", msgType := "error" } } ∧
    (handleContactSubmission env outcome s).emailCalls = s.emailCalls ∧
    (handleContactSubmission env outcome s).isSubmitting = false ∧
    (handleContactSubmission env outcome s).submitBtn = s.submitBtn ∧
    (handleContactSubmission env outcome s).analyticsEvents = s.analyticsEvents := by
  have hall : s.fields.all (fun f => !f.required || (validateField f).isNone) = false := by
    rw [Bool.eq_false_iff]
    intro hall
    rw [List.all_eq_true] at hall
    obtain ⟨f, hf, hreq, hne⟩ := hinv
    have := hall f hf
    rw [hreq] at this
    simp at this
    exact hne this
  have hmain : handleContactSubmission env outcome s =
      { s with
        fields := s.fields.map (fun f =>
          if f.required then { f with errorShown := validateField f } else f)
        banner := some { message := "Please correct the errors below.", msgType := "error" } } := by
    simp only [handleContactSubmission, hflag, hall]
    rfl
  refine ⟨hmain, ?_, ?_, ?_, ?_⟩ <;> rw [hmain]
  exact hflag

/-- Witness for C4: a concrete state whose required name field is empty. -/
theorem invalid_submission_blocked_witness :
    (handleContactSubmission exEnv EmailOutcome.success exInvalidState).emailCalls =
      exInvalidState.emailCalls ∧
    (handleContactSubmission exEnv EmailOutcome.success exInvalidState).isSubmitting = false :=
  ⟨(invalid_submission_blocked exEnv EmailOutcome.success exInvalidState rfl
      ⟨{ exNameField with value := "" }, by decide, rfl, by decide⟩).2.1,
   (invalid_submission_blocked exEnv EmailOutcome.success exInvalidState rfl
      ⟨{ exNameField with value := "" }, by decide, rfl, by decide⟩).2.2.1⟩

/-- C9: a valid submission whose outbound email call rejects is caught: the
error banner is shown, the error is logged to the console, and the
`finally` block resets the submitting flag and restores the submit button
content with the button re-enabled — on success and failure alike — so a
manual retry is possible. -/
theorem failed_submission_recovers (env : SubmitEnv) (err : String)
    (s : ContactFormState) (hflag : s.isSubmitting = false)
    (hvalid : ∀ f ∈ s.fields, f.required = true → validateField f = none) :
    (handleContactSubmission env (EmailOutcome.failure err) s).banner =
      some { message := failureBannerText, msgType := "error" } ∧
    (handleContactSubmission env (EmailOutcome.failure err) s).consoleErrors =
      s.consoleErrors ++ ["Form submission failed: " ++ err] ∧
    (handleContactSubmission env (EmailOutcome.failure err) s).isSubmitting = false ∧
    (handleContactSubmission env (EmailOutcome.failure err) s).submitBtn =
      { innerHTML := s.submitBtn.innerHTML, disabled := false } ∧
    (handleContactSubmission env EmailOutcome.success s).isSubmitting = false ∧
    (handleContactSubmission env EmailOutcome.success s).submitBtn =
      { innerHTML := s.submitBtn.innerHTML, disabled := false } := by
  have hall := form_all_valid_of_forall hvalid
  simp only [handleContactSubmission, hflag, hall]
  refine ⟨rfl, rfl, rfl, rfl, rfl, rfl⟩

/-- Witness for C9 at a concrete valid state with a rejecting send. -/
theorem failed_submission_recovers_witness :
    (handleContactSubmission exEnv (EmailOutcome.failure "Network error") exValidState).banner =
      some { message := failureBannerText, msgType := "error" } ∧
    (handleContactSubmission exEnv (EmailOutcome.failure "Network error")
        exValidState).consoleErrors =
      exValidState.consoleErrors ++ ["Form submission failed: " ++ "Network error"] ∧
    (handleContactSubmission exEnv (EmailOutcome.failure "Network error")
        exValidState).isSubmitting = false ∧
    (handleContactSubmission exEnv (EmailOutcome.failure "Network error")
        exValidState).submitBtn =
      { innerHTML := exValidState.submitBtn.innerHTML, disabled := false } ∧
    (handleContactSubmission exEnv EmailOutcome.success exValidState).isSubmitting = false ∧
    (handleContactSubmission exEnv EmailOutcome.success exValidState).submitBtn =
      { innerHTML := exValidState.submitBtn.innerHTML, disabled := false } :=
  failed_submission_recovers exEnv "Network error" exValidState rfl (by decide)

/-- `finalTemplateParams` never defines keys `service` or `budget` — the
selections live under `user_service` and `user_budget` — so the property
reads of the `trackEvent` call are both `undefined`. -/
theorem submitAnalyticsProps_always_undefined (env : SubmitEnv)
    (fields : List FormField) :
    submitAnalyticsProps (buildFinalTemplateParams env fields) =
      [("service", none), ("budget", none)] := rfl

/-- Counterexample for C1: a successful submission with
service "Web Development" and budget "$10k+" selected emits an analytics
event whose `service`/`budget` properties are `undefined` (`none`), not
the submitted values and not "Not specified". -/
theorem analytics_props_counterexample :
    backupValue exValidState.fields "service" = "Web Development" ∧
    backupValue exValidState.fields "budget" = "$10k+" ∧
    (handleContactSubmission exEnv EmailOutcome.success exValidState).analyticsEvents =
      [("contact_form_submit",
        [("service", (none : Option String)), ("budget", (none : Option String))])] ∧
    [("service", (none : Option String)), ("budget", (none : Option String))] ≠
      [("service", some "Web Development"), ("budget", some "$10k+")] := by
  refine ⟨rfl, rfl, ?_, by decide⟩
  rfl

/-- C1 as amended: for every submission that reaches the analytics call
(not in flight, all required fields valid, send resolves), the emitted
event is `contact_form_submit` with both the `service` and the `budget`
property `undefined`, regardless of the submitted selections. -/
theorem analytics_props_undefined (env : SubmitEnv) (s : ContactFormState)
    (hflag : s.isSubmitting = false)
    (hvalid : ∀ f ∈ s.fields, f.required = true → validateField f = none) :
    (handleContactSubmission env EmailOutcome.success s).analyticsEvents =
      s.analyticsEvents ++ [("contact_form_submit",
        [("service", (none : Option String)), ("budget", (none : Option String))])] := by
  have hall := form_all_valid_of_forall hvalid
  simp only [handleContactSubmission, hflag, hall]
  rw [submitAnalyticsProps_always_undefined]
  simp

/-- Witness for the amended C1 at the concrete valid state. -/
theorem analytics_props_undefined_witness :
    (handleContactSubmission exEnv EmailOutcome.success exValidState).analyticsEvents =
      exValidState.analyticsEvents ++ [("contact_form_submit",
        [("service", (none : Option String)), ("budget", (none : Option String))])] :=
  analytics_props_undefined exEnv exValidState rfl (by decide)

/-- A tick on an active timer whose clamp condition fails advances the
running value by the increment and keeps the timer alive. -/
theorem counterTick_step_no_clamp (target increment : ℚ) (s : CounterState)
    (hact : s.timerActive = true)
    (hg : ¬((increment > 0 ∧ target ≤ s.current + increment) ∨
            (increment < 0 ∧ s.current + increment ≤ target))) :
    counterTick target increment s =
      { current := s.current + increment, timerActive := true,
        textContent := ⌊s.current + increment⌋ } := by
  unfold counterTick
  rw [if_pos hact, if_neg hg]

/-- A tick on an active timer whose clamp condition holds snaps the value
to the target and clears the interval. -/
theorem counterTick_step_clamp (target increment : ℚ) (s : CounterState)
    (hact : s.timerActive = true)
    (hg : (increment > 0 ∧ target ≤ s.current + increment) ∨
          (increment < 0 ∧ s.current + increment ≤ target)) :
    counterTick target increment s =
      { current := target, timerActive := false, textContent := ⌊target⌋ } := by
  unfold counterTick
  rw [if_pos hact, if_pos hg]

/-- Trajectory of the counter before the clamp fires: with
`increment = (target - start) / 125` and `start ≠ target`, after
`k ≤ 124` ticks the running value is `start + k * increment` and the
interval is still active. -/
theorem counterTick_trajectory (start target : ℤ) (h : start ≠ target) :
    ∀ k : ℕ, k ≤ 124 →
      (counterTick (target : ℚ) (((target : ℚ) - (start : ℚ)) / 125))^[k] (counterInit start) =
        { current := (start : ℚ) + (k : ℚ) * (((target : ℚ) - (start : ℚ)) / 125)
          timerActive := true
          textContent := ⌊(start : ℚ) + (k : ℚ) * (((target : ℚ) - (start : ℚ)) / 125)⌋ } := by
  have hne' : (target : ℚ) ≠ (start : ℚ) := by exact_mod_cast Ne.symm h
  intro k
  induction k with
  | zero =>
    intro _
    simp [counterInit]
  | succ k ih =>
    intro hk
    have hk' : k ≤ 124 := by omega
    rw [Function.iterate_succ_apply', ih hk']
    set e : ℚ := ((target : ℚ) - (start : ℚ)) / 125 with he
    have h125 : (125 : ℚ) * e = (target : ℚ) - (start : ℚ) := by
      rw [he]; field_simp
    have htar : (target : ℚ) = (start : ℚ) + 125 * e := by rw [h125]; ring
    have hk1 : ((k : ℚ) + 1) ≤ 124 := by
      have hcast : ((k : ℚ) + 1) = ((k + 1 : ℕ) : ℚ) := by push_cast; ring
      rw [hcast]
      exact_mod_cast hk
    have hguard : ¬((e > 0 ∧ (target : ℚ) ≤ ((start : ℚ) + (k : ℚ) * e) + e) ∨
        (e < 0 ∧ ((start : ℚ) + (k : ℚ) * e) + e ≤ (target : ℚ))) := by
      rcases lt_or_gt_of_ne (sub_ne_zero.mpr hne') with hneg | hpos
      · have hee : e < 0 := by
          rw [he]; exact div_neg_of_neg_of_pos hneg (by norm_num)
        rintro (⟨hp, _⟩ | ⟨_, hle⟩)
        · linarith
        · rw [htar] at hle
          nlinarith
      · have hee : 0 < e := by
          rw [he]; exact div_pos hpos (by norm_num)
        rintro (⟨_, hle⟩ | ⟨hp, _⟩)
        · rw [htar] at hle
          nlinarith
        · linarith
    rw [counterTick_step_no_clamp (target : ℚ) e _ rfl hguard]
    have harith : ((start : ℚ) + (k : ℚ) * e) + e = (start : ℚ) + ((k + 1 : ℕ) : ℚ) * e := by
      push_cast; ring
    show ({ current := ((start : ℚ) + (k : ℚ) * e) + e
            timerActive := true
            textContent := ⌊((start : ℚ) + (k : ℚ) * e) + e⌋ } : CounterState) = _
    rw [harith]

/-- C2 as amended: with the configured 2000ms duration and `start ≠ target`,
the 16ms interval reaches the state with the displayed text exactly the
target and the interval cleared after exactly 125 ticks, in either
direction (the clamp catches the final step). -/
theorem animateCounter_terminates (start target : ℤ) (h : start ≠ target) :
    (counterTick (target : ℚ) (animateCounterInc start target 2000))^[125] (counterInit start) =
      { current := (target : ℚ), timerActive := false, textContent := target } := by
  have hne' : (target : ℚ) ≠ (start : ℚ) := by exact_mod_cast Ne.symm h
  have hinc : animateCounterInc start target 2000 = ((target : ℚ) - (start : ℚ)) / 125 := by
    unfold animateCounterInc
    norm_num
  rw [hinc]
  have h124 := counterTick_trajectory start target h 124 (by norm_num)
  rw [show (125 : ℕ) = 124 + 1 from rfl, Function.iterate_succ_apply', h124,
    show ((124 : ℕ) : ℚ) = (124 : ℚ) by norm_num]
  set e : ℚ := ((target : ℚ) - (start : ℚ)) / 125 with he
  have h125 : (125 : ℚ) * e = (target : ℚ) - (start : ℚ) := by
    rw [he]; field_simp
  have hcur : ((start : ℚ) + (124 : ℚ) * e) + e = (target : ℚ) := by
    have hstep : ((start : ℚ) + (124 : ℚ) * e) + e = (start : ℚ) + 125 * e := by ring
    rw [hstep]
    linarith [h125]
  have hguard : (e > 0 ∧ (target : ℚ) ≤ ((start : ℚ) + (124 : ℚ) * e) + e) ∨
      (e < 0 ∧ ((start : ℚ) + (124 : ℚ) * e) + e ≤ (target : ℚ)) := by
    rcases lt_or_gt_of_ne (sub_ne_zero.mpr hne') with hneg | hpos
    · exact Or.inr ⟨by rw [he]; exact div_neg_of_neg_of_pos hneg (by norm_num), le_of_eq hcur⟩
    · exact Or.inl ⟨by rw [he]; exact div_pos hpos (by norm_num), ge_of_eq hcur⟩
  rw [counterTick_step_clamp (target : ℚ) e
      { current := (start : ℚ) + 124 * e, timerActive := true,
        textContent := ⌊(start : ℚ) + 124 * e⌋ } rfl hguard]
  simp [Int.floor_intCast]

/-- Witness for the amended C2 at `start = 0`, `target = 100`. -/
theorem animateCounter_terminates_witness :
    (0 : ℤ) ≠ (100 : ℤ) ∧
    (counterTick ((100 : ℤ) : ℚ) (animateCounterInc 0 100 2000))^[125] (counterInit 0) =
      { current := ((100 : ℤ) : ℚ), timerActive := false, textContent := (100 : ℤ) } :=
  ⟨by decide, animateCounter_terminates 0 100 (by decide)⟩

/-- With start = target the computed increment is zero. -/
theorem animateCounterInc_equal_zero :
    animateCounterInc 5 5 2000 = 0 := by
  unfold animateCounterInc
  norm_num

/-- When the starting display equals the target the increment is zero, and
a tick leaves the state unchanged with the interval still armed. -/
theorem counterTick_equal_fixed :
    counterTick ((5 : ℤ) : ℚ) (animateCounterInc 5 5 2000) (counterInit 5) = counterInit 5 := by
  rw [animateCounterInc_equal_zero]
  unfold counterTick counterInit
  norm_num [Int.floor_intCast]

/-- Counterexample for C2: starting at the target (start = target = 5), the
increment is `0`, the tick is the identity on the initial state, and after
a million 16ms ticks the interval is still active — `clearInterval` never
runs, contradicting the claim that the timer is eventually cleared in the
start-equals-target case. -/
theorem animateCounter_equal_start_stuck :
    animateCounterInc 5 5 2000 = 0 ∧
    counterTick ((5 : ℤ) : ℚ) (animateCounterInc 5 5 2000) (counterInit 5) = counterInit 5 ∧
    ((counterTick ((5 : ℤ) : ℚ) (animateCounterInc 5 5 2000))^[1000000]
      (counterInit 5)).timerActive = true := by
  refine ⟨animateCounterInc_equal_zero, counterTick_equal_fixed, ?_⟩
  rw [Function.iterate_fixed counterTick_equal_fixed 1000000]
  rfl

end Showcase
